import Mathlib

/-!
# gosvelte: the router adapter and the typed handler

A shallow embedding of `handler/handler.go`.  The Go code is glue over four
libraries (`net/http`, `context`, `log`, `html/template`) and one third-party
router (`httprouter`); the parts of those libraries that the code calls are
modelled here by the behaviour of their Go implementations:

* the response sink is the `ResponseWriter` of the `net/http` server that
  `cmd/main.go` starts with `http.ListenAndServe`: the first final
  `WriteHeader` wins and a later one is logged as superfluous, a 1xx code other
  than 101 is an informational response, a `Write` before any final
  `WriteHeader` implies status 200, a response with status 1xx, 204 or 304
  carries no body, and a status outside 100..999 makes `WriteHeader` panic;
* requests live in a heap and are passed by pointer, as `*http.Request` is;
* every call that reaches the logger or a response sink is appended to one
  chronological trace, from which the state of each sink is recomputed;
* a Go panic is the `fault` outcome: nothing in this package recovers.
-/

set_option autoImplicit false
set_option linter.dupNamespace false

namespace Gosvelte

/-! ## Values -/

/-- One route parameter, `httprouter.Param`. -/
structure Param where
  Key : String
  Value : String
deriving DecidableEq, Repr

/-- The route parameters of one request, `httprouter.Params`: an ordered slice. -/
abbrev Params := List Param

/-- The method `Params.ByName`: the value of the first parameter with the
given key, the empty string when there is none. -/
def Params.ByName (ps : Params) (name : String) : String :=
  match ps.find? (fun p => p.Key = name) with
  | some p => p.Value
  | none => ""

/-- Shared configuration, `handler.Env`. -/
structure Env where
  Port : String
  Host : String
deriving DecidableEq, Repr

/-- A value of Go's interface type `error`, by dynamic type.
`nil` is the nil interface; `plain` is any dynamic type that has only the
method `Error()` (for instance what `errors.New` returns); `statusError` is
`handler.StatusError{Code, Err}`; `coded` is any other dynamic type that also
has a method `Status() int`, so that it implements `handler.Error`.  Go's `int`
is `Int` here: the code does no arithmetic on a status. -/
inductive GoError where
  | nil
  | plain (msg : String)
  | statusError (Code : Int) (Err : GoError)
  | coded (status : Int) (msg : String)
deriving DecidableEq, Repr

/-- The method `Error()`; `none` when the call panics (a method call on a nil
interface).  For a `StatusError` this is `se.Err.Error()`. -/
def GoError.Error : GoError → Option String
  | .nil => none
  | .plain msg => some msg
  | .statusError _ Err => Err.Error
  | .coded _ msg => some msg

/-- The method `Status()` of the dynamic types that have it; `none` for the
types that do not implement `handler.Error`.  For a `StatusError` this is
`se.Code`; it is also what the type switch `case Error:` tests. -/
def GoError.Status : GoError → Option Int
  | .nil => none
  | .plain _ => none
  | .statusError Code _ => some Code
  | .coded status _ => some status

/-- The private key type `type key int`.  (The source comment above it speaks
of a `UserTokenKey` for the user; the code stores only route parameters under
a key of this type.) -/
structure key where
  val : Int
deriving DecidableEq, Repr

/-- The constant `psKey key = 0`. -/
def psKey : key := ⟨0⟩

/-- A context key, a comparable value of type `any`, by dynamic type: a value
of the private type `key`, or a value of any other type (type name and
printed value).  Two keys are equal when type and value are. -/
inductive CtxKey where
  | ofKey (k : key)
  | other (typeName : String) (value : String)
deriving DecidableEq, Repr

/-- A non-nil context value of type `any`, by dynamic type: a
`httprouter.Params`, or a value of any other type. -/
inductive CtxVal where
  | ofParams (ps : Params)
  | other (typeName : String) (value : String)
deriving DecidableEq, Repr

/-- A `context.Context`, as far as `Value` can tell: the empty background
context, or a `valueCtx` holding one key, one value (possibly nil) and its
parent. -/
inductive Context where
  | background
  | valueCtx (parent : Context) (k : CtxKey) (val : Option CtxVal)
deriving DecidableEq, Repr

/-- The method `Value` of a context: the innermost value stored under `k`,
nil (`none`) when there is none. -/
def Context.Value : Context → CtxKey → Option CtxVal
  | .background, _ => none
  | .valueCtx parent k val, k2 => if k = k2 then val else parent.Value k2

/-- The keys a context stores a value under, innermost first. -/
def Context.keys : Context → List CtxKey
  | .background => []
  | .valueCtx parent k _ => k :: parent.keys

/-- The function `context.WithValue`. -/
def context.WithValue (parent : Context) (k : CtxKey) (val : Option CtxVal) : Context :=
  .valueCtx parent k val

/-- The fields of a `http.Request` that matter here; `ctx` is nil until a
context is attached. -/
structure Request where
  Method : String
  URL : String
  Header : List (String × String)
  Body : String
  ctx : Option Context
deriving DecidableEq, Repr

/-- The method `Request.Context`: the attached context, the background
context when none is attached. -/
def Request.Context (r : Request) : Context :=
  match r.ctx with
  | some c => c
  | none => .background

/-- The copy that `Request.WithContext` makes: every field of `r`, the context
replaced. -/
def Request.WithContext (r : Request) (c : Gosvelte.Context) : Request :=
  { r with ctx := some c }

/-! ## The world: request heap and call trace -/

/-- A response sink, by identity. -/
abbrev ResponseWriter := Nat

/-- A `*http.Request`: an index into the request heap. -/
abbrev RequestPtr := Nat

/-- One call that reaches the standard logger or a response sink. -/
inductive Event where
  | logEntry (msg : String)
  | headerSet (w : ResponseWriter) (k : String) (v : String)
  | writeHeader (w : ResponseWriter) (code : Int)
  | write (w : ResponseWriter) (p : String)
deriving DecidableEq, Repr

/-- The state the code runs in: the allocated requests and the calls made so
far, oldest first. -/
structure World where
  heap : List Request
  trace : List Event
deriving DecidableEq, Repr

/-- Dereference a request pointer; `none` for a pointer that addresses no
request (a nil pointer). -/
def World.load (σ : World) (r : RequestPtr) : Option Request :=
  σ.heap.get? r

/-- Allocate a request: the fresh pointer and the extended world. -/
def World.new (σ : World) (req : Request) : RequestPtr × World :=
  (σ.heap.length, { σ with heap := σ.heap ++ [req] })

/-- Append one call to the trace. -/
def World.emit (σ : World) (e : Event) : World :=
  { σ with trace := σ.trace ++ [e] }

/-- How a call ends: it returns a value, or a panic unwinds out of it. -/
inductive Outcome (α : Type) where
  | fault (σ : World)
  | ret (σ : World) (a : α)
deriving DecidableEq, Repr

/-- The world a call leaves behind. -/
def Outcome.world {α : Type} : Outcome α → World
  | .fault σ => σ
  | .ret σ _ => σ

/-- Sequencing: run `k` on what `o` returns; a fault propagates. -/
def Outcome.bind {α β : Type} (o : Outcome α) (k : World → α → Outcome β) : Outcome β :=
  match o with
  | .fault σ => .fault σ
  | .ret σ a => k σ a

/-! ## The response sink -/

/-- The function `bodyAllowedForStatus` of `net/http`: a response with a 1xx,
204 or 304 status carries no body. -/
def http.bodyAllowedForStatus (status : Int) : Bool :=
  if 100 ≤ status ∧ status ≤ 199 then false
  else if status = 204 then false
  else if status = 304 then false
  else true

/-- What the `net/http` server has sent for one sink: the final status, the
body, the 1xx responses sent ahead of it, and whether the final header was
written.  `HeaderMap` is the live header map, of which the client is sent the
entries set before the header was written. -/
structure Response where
  Code : Int
  HeaderMap : List (String × String)
  Body : String
  wroteHeader : Bool
  Informational : List Int
deriving DecidableEq, Repr

/-- A sink nothing was written to; the server answers 200 when the handler
returns without writing. -/
def Response.fresh : Response :=
  { Code := 200, HeaderMap := [], Body := "", wroteHeader := false, Informational := [] }

/-- The method `Header.Set` on a header map: replace the values under `k`. -/
def headerSet (m : List (String × String)) (k v : String) : List (String × String) :=
  m.filter (fun kv => kv.1 != k) ++ [(k, v)]

/-- The effect of one traced call on the response of sink `w`, as the server's
`response.WriteHeader` and `response.Write` have it.  A `WriteHeader` after
the header was written changes nothing; one with a code outside 100..999
panics before it changes anything; one with a 1xx code other than 101 sends an
informational response and leaves the final header unwritten; any other code
is the final status.  A `Write` writes the header with status 200 first when
none was written, and its bytes are dropped when the status allows no body. -/
def Response.step (w : ResponseWriter) (rw : Response) : Event → Response
  | .logEntry _ => rw
  | .headerSet w2 k v => if w2 = w then { rw with HeaderMap := headerSet rw.HeaderMap k v } else rw
  | .writeHeader w2 code =>
      if w2 = w ∧ rw.wroteHeader = false ∧ 100 ≤ code ∧ code ≤ 999 then
        if 100 ≤ code ∧ code ≤ 199 ∧ code ≠ 101 then
          { rw with Informational := rw.Informational ++ [code] }
        else
          { rw with Code := code, wroteHeader := true }
      else rw
  | .write w2 p =>
      if w2 = w then
        { rw with Code := if rw.wroteHeader then rw.Code else 200,
                  wroteHeader := true,
                  Body := if http.bodyAllowedForStatus (if rw.wroteHeader then rw.Code else 200)
                    then rw.Body ++ p else rw.Body }
      else rw

/-- The response of sink `w` after the calls of a trace. -/
def responseOf (w : ResponseWriter) (t : List Event) : Response :=
  t.foldl (Response.step w) Response.fresh

/-- The response of sink `w` in a world: what the client of `w` is sent. -/
def World.response (σ : World) (w : ResponseWriter) : Response :=
  responseOf w σ.trace

/-- The call `w.Header().Set(k, v)`. -/
def ResponseWriter.HeaderSet (w : ResponseWriter) (k v : String) (σ : World) : World :=
  σ.emit (.headerSet w k v)

/-- The line the server logs, through the standard logger, for a `WriteHeader`
after the header was written.  The real line goes on to name the calling
function and its source line. -/
def http.superfluousWriteHeader : String :=
  "http: superfluous response.WriteHeader call"

/-- The call `w.WriteHeader(code)` on the server's sink.  After the header was
written the call is superfluous: the server logs that and changes nothing.
Otherwise it panics on a code outside 100..999. -/
def ResponseWriter.WriteHeader (w : ResponseWriter) (code : Int) (σ : World) : Outcome Unit :=
  if (σ.response w).wroteHeader = true then
    .ret ((σ.emit (.writeHeader w code)).emit (.logEntry http.superfluousWriteHeader)) ()
  else if code < 100 ∨ 999 < code then
    .fault (σ.emit (.writeHeader w code))
  else
    .ret (σ.emit (.writeHeader w code)) ()

/-- The call `w.Write(p)`. -/
def ResponseWriter.Write (w : ResponseWriter) (p : String) (σ : World) : World :=
  σ.emit (.write w p)

/-! ## Library calls made by the handler -/

/-- The constant `http.StatusInternalServerError`. -/
def http.StatusInternalServerError : Int := 500

/-- The function `http.StatusText`, on the codes this program can pass to it
and a few neighbours; the empty string for an unknown code. -/
def http.StatusText (code : Int) : String :=
  if code = 200 then "OK"
  else if code = 400 then "Bad Request"
  else if code = 404 then "Not Found"
  else if code = 500 then "Internal Server Error"
  else ""

/-- The function `http.Error(w, error, code)`: it sets two headers, writes the
status, and prints the message with `fmt.Fprintln`, that is, followed by a
newline, in one `Write`.  (Later Go releases delete the `Content-Length`
header first; status and body are the same.) -/
def http.Error (w : ResponseWriter) (error : String) (code : Int) (σ : World) : Outcome Unit :=
  let σ1 := ResponseWriter.HeaderSet w "Content-Type" "text/plain; charset=utf-8" σ
  let σ2 := ResponseWriter.HeaderSet w "X-Content-Type-Options" "nosniff" σ1
  (ResponseWriter.WriteHeader w code σ2).bind
    (fun σ3 _ => .ret (ResponseWriter.Write w (error ++ "\n") σ3) ())

/-- The four calls that `http.Error(w, msg, code)` makes, in order. -/
def http.Error.calls (w : ResponseWriter) (msg : String) (code : Int) : List Event :=
  [.headerSet w "Content-Type" "text/plain; charset=utf-8",
   .headerSet w "X-Content-Type-Options" "nosniff",
   .writeHeader w code, .write w (msg ++ "\n")]

/-- What the verb `%s` prints for an error operand: its `Error()` text, or the
marker that `fmt` prints when the method panics (`fmt` recovers from it). -/
def fmt.verbS (e : GoError) : String :=
  match e.Error with
  | some msg => msg
  | none => "%!s(PANIC=Error method: runtime error: invalid memory address or nil pointer dereference)"

/-- The text `fmt.Sprintf("HTTP %d - %s", status, e)`. -/
def fmt.SprintfHTTP (status : Int) (e : GoError) : String :=
  "HTTP " ++ toString status ++ " - " ++ fmt.verbS e

/-- The call `log.Printf` with an already formatted message: one entry of the
standard logger. -/
def log.Printf (msg : String) (σ : World) : World :=
  σ.emit (.logEntry msg)

/-! ## The typed handler -/

/-- The function type `handler.Handle`; the world is threaded through. -/
abbrev Handle := Env → ResponseWriter → RequestPtr → Params → World → Outcome GoError

/-- The interface `http.Handler`, by its one method `ServeHTTP`. -/
abbrev http.Handler := ResponseWriter → RequestPtr → World → Outcome Unit

/-- The function type `httprouter.Handle`. -/
abbrev httprouter.Handle := ResponseWriter → RequestPtr → Params → World → Outcome Unit

/-- The struct `handler.Handler`: a configured `Env` and a function. -/
structure Handler where
  Env : Gosvelte.Env
  H : Handle

/-- The translation of the returned error in `Handler.ServeHTTP`, the block
`if err != nil { switch e := err.(type) ... }` (handler.go, lines 98-111).
In the `Error` case the arguments of `http.Error` are evaluated first, so a
panic of `e.Error()` comes after the log entry and before any write. -/
def Handler.ServeHTTP.translate (w : ResponseWriter) (σ : World) (err : GoError) : Outcome Unit :=
  if err ≠ GoError.nil then
    match err.Status with
    | some status =>
        let σ1 := log.Printf (fmt.SprintfHTTP status err) σ
        match err.Error with
        | some msg => http.Error w msg status σ1
        | none => .fault σ1
    | none =>
        http.Error w (http.StatusText http.StatusInternalServerError)
          http.StatusInternalServerError σ
  else .ret σ ()

/-- The method `Handler.ServeHTTP` (handler.go, lines 95-112).  The type
assertion `r.Context().Value(psKey).(httprouter.Params)` panics when the value
is nil or of another type. -/
def Handler.ServeHTTP (h : Handler) : http.Handler :=
  fun w r σ =>
    match σ.load r with
    | none => .fault σ
    | some req =>
        match req.Context.Value (.ofKey psKey) with
        | some (.ofParams ps) => (h.H h.Env w r ps σ).bind (Handler.ServeHTTP.translate w)
        | _ => .fault σ

/-! ## The router adapter -/

/-- The function `wrapHandler` (handler.go, lines 77-83). -/
def wrapHandler (h : http.Handler) : httprouter.Handle :=
  fun w r ps σ =>
    match σ.load r with
    | none => .fault σ
    | some req =>
        let ctxWithParams := context.WithValue req.Context (.ofKey psKey) (some (.ofParams ps))
        let (rWithPS, σ1) := σ.new (req.WithContext ctxWithParams)
        h w rWithPS σ1

/-- One registered route of the external engine. -/
structure httprouter.Route where
  method : String
  path : String
  handle : httprouter.Handle

/-- The external engine `httprouter.Router`, as the routes registered so far,
oldest first. -/
structure httprouter.Router where
  routes : List httprouter.Route

/-- The function `httprouter.New`. -/
def httprouter.New : httprouter.Router :=
  { routes := [] }

/-- Whether the engine takes a route: the path begins with a slash and the
route tree of the method does not refuse it.  The tree's check of a path
against the paths already registered for the method is the parameter
`refuses`. -/
def httprouter.Router.accepts (refuses : List String → String → Bool) (rt : httprouter.Router)
    (method path : String) : Bool :=
  path.data.head? = some '/' &&
    !refuses ((rt.routes.filter (fun x => x.method = method)).map (fun x => x.path)) path

/-- The method `Handle(method, path, handle)` of the engine: it panics (`none`)
on a route it does not take, and adds the route otherwise. -/
def httprouter.Router.Handle (refuses : List String → String → Bool) (rt : httprouter.Router)
    (method path : String) (handle : httprouter.Handle) : Option httprouter.Router :=
  if rt.accepts refuses method path then
    some { routes := rt.routes ++ [{ method := method, path := path, handle := handle }] }
  else none

/-- The engine's `GET`, a shortcut for `Handle("GET", path, handle)`. -/
def httprouter.Router.GET (refuses : List String → String → Bool) (rt : httprouter.Router)
    (path : String) (handle : httprouter.Handle) : Option httprouter.Router :=
  rt.Handle refuses "GET" path handle

/-- The engine's `POST`. -/
def httprouter.Router.POST (refuses : List String → String → Bool) (rt : httprouter.Router)
    (path : String) (handle : httprouter.Handle) : Option httprouter.Router :=
  rt.Handle refuses "POST" path handle

/-- The engine's `PUT`. -/
def httprouter.Router.PUT (refuses : List String → String → Bool) (rt : httprouter.Router)
    (path : String) (handle : httprouter.Handle) : Option httprouter.Router :=
  rt.Handle refuses "PUT" path handle

/-- The engine's `DELETE`. -/
def httprouter.Router.DELETE (refuses : List String → String → Bool) (rt : httprouter.Router)
    (path : String) (handle : httprouter.Handle) : Option httprouter.Router :=
  rt.Handle refuses "DELETE" path handle

/-- The struct `handler.Router`, which embeds the engine. -/
structure Router where
  Router : httprouter.Router

/-- The function `NewRouter`. -/
def NewRouter : Router :=
  { Router := httprouter.New }

/-- The method `Router.Get`; `none` when the engine panics. -/
def Router.Get (refuses : List String → String → Bool) (r : Gosvelte.Router)
    (path : String) (handler : http.Handler) : Option Gosvelte.Router :=
  (r.Router.GET refuses path (wrapHandler handler)).map (fun e => { Router := e })

/-- The method `Router.Post`. -/
def Router.Post (refuses : List String → String → Bool) (r : Gosvelte.Router)
    (path : String) (handler : http.Handler) : Option Gosvelte.Router :=
  (r.Router.POST refuses path (wrapHandler handler)).map (fun e => { Router := e })

/-- The method `Router.Put`. -/
def Router.Put (refuses : List String → String → Bool) (r : Gosvelte.Router)
    (path : String) (handler : http.Handler) : Option Gosvelte.Router :=
  (r.Router.PUT refuses path (wrapHandler handler)).map (fun e => { Router := e })

/-- The method `Router.Delete`. -/
def Router.Delete (refuses : List String → String → Bool) (r : Gosvelte.Router)
    (path : String) (handler : http.Handler) : Option Gosvelte.Router :=
  (r.Router.DELETE refuses path (wrapHandler handler)).map (fun e => { Router := e })

/-! ## The page handlers -/

/-- A parsed template set, `*template.Template` when not nil. -/
structure template.Template where
  id : Nat
deriving DecidableEq, Repr

/-- The template collaborator as one request sees it: what `ParseFiles` returns
for a list of file names (a template pointer, nil on failure, and an error),
and what `ExecuteTemplate` on a parsed set does to the world and returns. -/
structure template.Library where
  ParseFiles : List String → Option template.Template × GoError
  ExecuteTemplate : template.Template → ResponseWriter → String → World → World × GoError

/-- The function `filepath.Join` on two clean, non-empty elements. -/
def filepath.Join (a b : String) : String :=
  a ++ "/" ++ b

/-- The function `Index` (handler.go, lines 114-121).  The error of
`ParseFiles` is dropped; the method call on the returned pointer dereferences
it, so it panics when the pointer is nil.  The error of `ExecuteTemplate` is
dropped. -/
def Index (lib : template.Library) : Handle :=
  fun _e w _r _ps σ =>
    let lp := filepath.Join "templates" "base.html"
    let fp := filepath.Join "templates" "index.html"
    let tmpl := (lib.ParseFiles [lp, fp]).1
    match tmpl with
    | none => .fault σ
    | some t => .ret (lib.ExecuteTemplate t w "base" σ).1 GoError.nil

/-- The function `Blog` (handler.go, lines 123-130). -/
def Blog (lib : template.Library) : Handle :=
  fun _e w _r _ps σ =>
    let lp := filepath.Join "templates" "base.html"
    let fp := filepath.Join "templates" "blog.html"
    let tmpl := (lib.ParseFiles [lp, fp]).1
    match tmpl with
    | none => .fault σ
    | some t => .ret (lib.ExecuteTemplate t w "base" σ).1 GoError.nil

/-! ## Who writes the response -/

/-- Whether a traced call writes the response of sink `w`: a `WriteHeader` or
a `Write` on `w`. -/
def Event.writesTo (w : ResponseWriter) : Event → Bool
  | .writeHeader w2 _ => decide (w2 = w)
  | .write w2 _ => decide (w2 = w)
  | _ => false

/-- Whether some call of a run of calls writes the response of sink `w`. -/
def wrote (w : ResponseWriter) (calls : List Event) : Bool :=
  calls.any (Event.writesTo w)

/-- Whether a traced call is an entry of the logger. -/
def Event.isLog : Event → Bool
  | .logEntry _ => true
  | _ => false

/-! ## Concrete inputs

Small requests, worlds and bundled functions on which the definitions are
evaluated. -/

/-- The request `GET /items/42`, no context attached. -/
def itemRequest : Request :=
  { Method := "GET", URL := "/items/42", Header := [("Accept", "text/html")], Body := "", ctx := none }

/-- The parameters the engine extracts from `/items/42` for `/items/:id`. -/
def itemParams : Params :=
  [{ Key := "id", Value := "42" }]

/-- The request `itemRequest` after the shim attached `itemParams`. -/
def itemRequestWithParams : Request :=
  itemRequest.WithContext
    (context.WithValue itemRequest.Context (.ofKey psKey) (some (.ofParams itemParams)))

/-- The request `GET /items/42` as a middleware left it: its context holds the
user under a key of the middleware, and no route parameters. -/
def authedRequest : Request :=
  { itemRequest with
    ctx := some (context.WithValue .background (.other "auth.ctxKey" "user")
      (some (.other "string" "alice"))) }

/-- A world holding `authedRequest` at pointer 0; nothing logged or written. -/
def authedWorld : World :=
  { heap := [authedRequest], trace := [] }

/-- The request `GET /items/42` with a string stored under the private key. -/
def mistypedRequest : Request :=
  { itemRequest with
    ctx := some (context.WithValue .background (.ofKey psKey) (some (.other "string" "42"))) }

/-- A world holding `itemRequest` at pointer 0; nothing logged or written. -/
def rawWorld : World :=
  { heap := [itemRequest], trace := [] }

/-- A world holding `itemRequestWithParams` at pointer 0; nothing logged or written. -/
def routedWorld : World :=
  { heap := [itemRequestWithParams], trace := [] }

/-- The environment of the examples. -/
def demoEnv : Env :=
  { Port := "8000", Host := "localhost" }

/-- A function that writes nothing and returns `StatusError{404, errors.New("not found")}`. -/
def notFound : Handle :=
  fun _ _ _ _ σ => .ret σ (.statusError 404 (.plain "not found"))

/-- A function that writes nothing and returns `StatusError{0, errors.New("x")}`. -/
def zeroStatus : Handle :=
  fun _ _ _ _ σ => .ret σ (.statusError 0 (.plain "x"))

/-- A function that writes nothing and returns `StatusError{204, errors.New("m")}`. -/
def noContent : Handle :=
  fun _ _ _ _ σ => .ret σ (.statusError 204 (.plain "m"))

/-- A function that writes nothing and returns `StatusError{100, errors.New("m")}`. -/
def continueStatus : Handle :=
  fun _ _ _ _ σ => .ret σ (.statusError 100 (.plain "m"))

/-- A function that writes `hello` and then returns
`StatusError{404, errors.New("not found")}`. -/
def helloThenNotFound : Handle :=
  fun _ w _ _ σ =>
    .ret (ResponseWriter.Write w "hello" σ) (.statusError 404 (.plain "not found"))

/-- A function that writes nothing and returns `errors.New("dial tcp 10.0.0.5:5432: refused")`. -/
def dbDown : Handle :=
  fun _ _ _ _ σ => .ret σ (.plain "dial tcp 10.0.0.5:5432: refused")

/-- A function that writes nothing and returns `errors.New("secret token expired")`. -/
def tokenExpired : Handle :=
  fun _ _ _ _ σ => .ret σ (.plain "secret token expired")

/-- A function that writes `hello` and returns nil. -/
def hello : Handle :=
  fun _ w _ _ σ => .ret (ResponseWriter.Write w "hello" σ) .nil

/-- A function that writes `hello` and then returns `errors.New("boom")`. -/
def helloThenFail : Handle :=
  fun _ w _ _ σ => .ret (ResponseWriter.Write w "hello" σ) (.plain "boom")

/-- A template collaborator whose files are missing: `ParseFiles` returns a nil
template and an error. -/
def missingTemplates : template.Library :=
  { ParseFiles := fun _ => (none, .plain "open templates/base.html: no such file or directory"),
    ExecuteTemplate := fun _ _ _ σ => (σ, .nil) }

/-- A template collaborator whose files parse, and whose execution writes half
a page and then fails. -/
def brokenExecution : template.Library :=
  { ParseFiles := fun _ => (some { id := 1 }, .nil),
    ExecuteTemplate := fun _ w _ σ =>
      (ResponseWriter.Write w "<html>" σ, .plain "template: no template \"base\"") }

/-- An engine tree check that refuses only a path already registered. -/
def refusesDuplicate (known : List String) (path : String) : Bool :=
  known.contains path

/-- A function that writes the route parameter `id` and returns nil. -/
def showId : Handle :=
  fun _ w _ ps σ => .ret (ResponseWriter.Write w (ps.ByName "id") σ) .nil

/-- A function that writes nothing and returns nil. -/
def silent : Handle :=
  fun _ _ _ _ σ => .ret σ .nil

/-! ## Lemmas -/

theorem responseOf_snoc (w : ResponseWriter) (t : List Event) (e : Event) :
    responseOf w (t ++ [e]) = (responseOf w t).step w e := by
  simp [responseOf, List.foldl_append]

theorem response_emit (σ : World) (w : ResponseWriter) (e : Event) :
    (σ.emit e).response w = (σ.response w).step w e := by
  simp [World.response, World.emit, responseOf_snoc]

/-- One traced call keeps the invariant that an unwritten sink has an empty body. -/
theorem step_keeps_empty_body (w : ResponseWriter) (rw : Response) (e : Event)
    (inv : rw.wroteHeader = false → rw.Body = "")
    (un : (rw.step w e).wroteHeader = false) : (rw.step w e).Body = "" := by
  cases e with
  | logEntry msg => exact inv un
  | headerSet w2 k v =>
      simp only [Response.step] at un ⊢
      split_ifs at un ⊢ <;> exact inv un
  | writeHeader w2 code =>
      simp only [Response.step] at un ⊢
      split_ifs at un ⊢ <;> exact inv un
  | write w2 p =>
      simp only [Response.step] at un ⊢
      split_ifs at un ⊢
      exact inv un

theorem foldl_keeps_empty_body (w : ResponseWriter) (t : List Event) (rw : Response)
    (inv : rw.wroteHeader = false → rw.Body = "") :
    (t.foldl (Response.step w) rw).wroteHeader = false →
      (t.foldl (Response.step w) rw).Body = "" := by
  induction t generalizing rw with
  | nil => exact inv
  | cons e t ih =>
      simp only [List.foldl_cons]
      exact ih (rw.step w e) (step_keeps_empty_body w rw e inv)

/-- A sink whose header was not written has an empty body. -/
theorem body_empty_of_unwritten (σ : World) (w : ResponseWriter)
    (un : (σ.response w).wroteHeader = false) : (σ.response w).Body = "" :=
  foldl_keeps_empty_body w σ.trace Response.fresh (fun _ => rfl) un

/-- Setting a header changes neither the status, nor the body, nor whether the
header was written. -/
theorem response_HeaderSet (w : ResponseWriter) (k v : String) (σ : World) :
    ((ResponseWriter.HeaderSet w k v σ).response w).wroteHeader = (σ.response w).wroteHeader ∧
    ((ResponseWriter.HeaderSet w k v σ).response w).Body = (σ.response w).Body ∧
    ((ResponseWriter.HeaderSet w k v σ).response w).Code = (σ.response w).Code := by
  simp [ResponseWriter.HeaderSet, response_emit, Response.step]

theorem bodyAllowed_of_final (code : Int) (lo : 200 ≤ code) (h204 : code ≠ 204)
    (h304 : code ≠ 304) : http.bodyAllowedForStatus code = true := by
  have h1 : ¬ (100 ≤ code ∧ code ≤ 199) := by omega
  simp [http.bodyAllowedForStatus, h1, h204, h304]

/-- The world after the two header calls of `http.Error`. -/
theorem wroteHeader_after_headers (w : ResponseWriter) (σ : World) :
    ((ResponseWriter.HeaderSet w "X-Content-Type-Options" "nosniff"
      (ResponseWriter.HeaderSet w "Content-Type" "text/plain; charset=utf-8" σ)).response
        w).wroteHeader = (σ.response w).wroteHeader := by
  rw [(response_HeaderSet w _ _ _).1, (response_HeaderSet w _ _ _).1]

theorem step_writeHeader_final (w : ResponseWriter) (rw : Response) (code : Int)
    (un : rw.wroteHeader = false) (lo : 200 ≤ code) (hi : code ≤ 999) :
    rw.step w (.writeHeader w code) = { rw with Code := code, wroteHeader := true } := by
  have h2 : ¬ (100 ≤ code ∧ code ≤ 199 ∧ code ≠ 101) := by omega
  simp only [Response.step]
  rw [if_pos ⟨trivial, un, by omega, hi⟩, if_neg h2]

theorem step_write_allowed (w : ResponseWriter) (rw : Response) (p : String)
    (hw : rw.wroteHeader = true) (ha : http.bodyAllowedForStatus rw.Code = true) :
    rw.step w (.write w p) = { rw with Body := rw.Body ++ p } := by
  simp [Response.step, hw, ha]

/-- The calls of `http.Error` on a sink nothing was written to, with a final
status that allows a body. -/
theorem http_Error_fresh (w : ResponseWriter) (msg : String) (code : Int) (σ : World)
    (un : (σ.response w).wroteHeader = false) (lo : 200 ≤ code) (hi : code ≤ 999)
    (h204 : code ≠ 204) (h304 : code ≠ 304) :
    ∃ σF, http.Error w msg code σ = .ret σF () ∧
      σF.heap = σ.heap ∧
      σF.trace = σ.trace ++ http.Error.calls w msg code ∧
      (σF.response w).Code = code ∧ (σF.response w).Body = msg ++ "\n" := by
  have h2 := wroteHeader_after_headers w σ
  rw [un] at h2
  have hb2 := body_empty_of_unwritten _ w h2
  have hnot : ¬ (code < 100 ∨ 999 < code) := by omega
  have hallow := bodyAllowed_of_final code lo h204 h304
  have hres : (((ResponseWriter.HeaderSet w "X-Content-Type-Options" "nosniff"
      (ResponseWriter.HeaderSet w "Content-Type" "text/plain; charset=utf-8" σ)).emit
        (.writeHeader w code)).emit (.write w (msg ++ "\n"))).response w
      = { ((ResponseWriter.HeaderSet w "X-Content-Type-Options" "nosniff"
            (ResponseWriter.HeaderSet w "Content-Type" "text/plain; charset=utf-8" σ)).response w)
          with Code := code, wroteHeader := true, Body := "" ++ (msg ++ "\n") } := by
    rw [response_emit, response_emit, step_writeHeader_final w _ code h2 lo hi,
      step_write_allowed w _ _ rfl hallow, hb2]
  refine ⟨((ResponseWriter.HeaderSet w "X-Content-Type-Options" "nosniff"
      (ResponseWriter.HeaderSet w "Content-Type" "text/plain; charset=utf-8" σ)).emit
        (.writeHeader w code)).emit (.write w (msg ++ "\n")), ?_, ?_, ?_, ?_, ?_⟩
  · simp only [http.Error, ResponseWriter.WriteHeader, h2, hnot, Outcome.bind,
      ResponseWriter.Write]
    simp
  · rfl
  · simp [ResponseWriter.HeaderSet, World.emit, http.Error.calls]
  · rw [hres]
  · rw [hres]; simp

theorem step_write_refused (w : ResponseWriter) (rw : Response) (p : String)
    (hw : rw.wroteHeader = true) (ha : http.bodyAllowedForStatus rw.Code = false) :
    rw.step w (.write w p) = rw := by
  cases rw
  simp_all [Response.step]

theorem step_writeHeader_no_body (w : ResponseWriter) (rw : Response) (code : Int)
    (un : rw.wroteHeader = false) (hc : code = 101 ∨ code = 204 ∨ code = 304) :
    rw.step w (.writeHeader w code) = { rw with Code := code, wroteHeader := true } := by
  have h2 : ¬ (100 ≤ code ∧ code ≤ 199 ∧ code ≠ 101) := by omega
  simp only [Response.step]
  rw [if_pos ⟨trivial, un, by omega, by omega⟩, if_neg h2]

theorem step_writeHeader_informational (w : ResponseWriter) (rw : Response) (code : Int)
    (un : rw.wroteHeader = false) (lo : 100 ≤ code) (hi : code ≤ 199) (h101 : code ≠ 101) :
    rw.step w (.writeHeader w code)
      = { rw with Informational := rw.Informational ++ [code] } := by
  simp only [Response.step]
  rw [if_pos ⟨trivial, un, lo, by omega⟩, if_pos ⟨lo, hi, h101⟩]

theorem step_write_fresh (w : ResponseWriter) (rw : Response) (p : String)
    (un : rw.wroteHeader = false) :
    rw.step w (.write w p)
      = { rw with Code := 200, wroteHeader := true, Body := rw.Body ++ p } := by
  simp [Response.step, un, http.bodyAllowedForStatus]

/-- The calls of `http.Error` on a sink nothing was written to, with status
101, 204 or 304: the status is written and the message is dropped. -/
theorem http_Error_no_body (w : ResponseWriter) (msg : String) (code : Int) (σ : World)
    (un : (σ.response w).wroteHeader = false) (hc : code = 101 ∨ code = 204 ∨ code = 304) :
    ∃ σF, http.Error w msg code σ = .ret σF () ∧
      (σF.response w).Code = code ∧ (σF.response w).Body = "" := by
  have h2 := wroteHeader_after_headers w σ
  rw [un] at h2
  have hb2 := body_empty_of_unwritten _ w h2
  have hnot : ¬ (code < 100 ∨ 999 < code) := by omega
  have hrefuse : http.bodyAllowedForStatus code = false := by
    rcases hc with h | h | h <;> subst h <;> decide
  have hres : (((ResponseWriter.HeaderSet w "X-Content-Type-Options" "nosniff"
      (ResponseWriter.HeaderSet w "Content-Type" "text/plain; charset=utf-8" σ)).emit
        (.writeHeader w code)).emit (.write w (msg ++ "\n"))).response w
      = { ((ResponseWriter.HeaderSet w "X-Content-Type-Options" "nosniff"
            (ResponseWriter.HeaderSet w "Content-Type" "text/plain; charset=utf-8" σ)).response w)
          with Code := code, wroteHeader := true } := by
    rw [response_emit, response_emit, step_writeHeader_no_body w _ code h2 hc,
      step_write_refused w _ _ rfl hrefuse]
  refine ⟨((ResponseWriter.HeaderSet w "X-Content-Type-Options" "nosniff"
      (ResponseWriter.HeaderSet w "Content-Type" "text/plain; charset=utf-8" σ)).emit
        (.writeHeader w code)).emit (.write w (msg ++ "\n")), ?_, ?_, ?_⟩
  · simp only [http.Error, ResponseWriter.WriteHeader, h2, hnot, Outcome.bind,
      ResponseWriter.Write]
    simp
  · rw [hres]
  · rw [hres]; exact hb2

/-- The calls of `http.Error` on a sink nothing was written to, with a 1xx
status other than 101: the status goes out as an informational response, and
the message is written under status 200. -/
theorem http_Error_informational (w : ResponseWriter) (msg : String) (code : Int) (σ : World)
    (un : (σ.response w).wroteHeader = false) (lo : 100 ≤ code) (hi : code ≤ 199)
    (h101 : code ≠ 101) :
    ∃ σF, http.Error w msg code σ = .ret σF () ∧
      (σF.response w).Informational = (σ.response w).Informational ++ [code] ∧
      (σF.response w).Code = 200 ∧ (σF.response w).Body = msg ++ "\n" := by
  have h2 := wroteHeader_after_headers w σ
  rw [un] at h2
  have hb2 := body_empty_of_unwritten _ w h2
  have hnot : ¬ (code < 100 ∨ 999 < code) := by omega
  have hinf : ((ResponseWriter.HeaderSet w "X-Content-Type-Options" "nosniff"
      (ResponseWriter.HeaderSet w "Content-Type" "text/plain; charset=utf-8" σ)).response
        w).Informational = (σ.response w).Informational := by
    simp [ResponseWriter.HeaderSet, response_emit, Response.step]
  have hres : (((ResponseWriter.HeaderSet w "X-Content-Type-Options" "nosniff"
      (ResponseWriter.HeaderSet w "Content-Type" "text/plain; charset=utf-8" σ)).emit
        (.writeHeader w code)).emit (.write w (msg ++ "\n"))).response w
      = { ((ResponseWriter.HeaderSet w "X-Content-Type-Options" "nosniff"
            (ResponseWriter.HeaderSet w "Content-Type" "text/plain; charset=utf-8" σ)).response w)
          with Code := 200, wroteHeader := true, Body := "" ++ (msg ++ "\n"),
               Informational := (σ.response w).Informational ++ [code] } := by
    rw [response_emit, response_emit, step_writeHeader_informational w _ code h2 lo hi h101,
      step_write_fresh]
    · simp only [hb2, hinf]
    · exact h2
  refine ⟨((ResponseWriter.HeaderSet w "X-Content-Type-Options" "nosniff"
      (ResponseWriter.HeaderSet w "Content-Type" "text/plain; charset=utf-8" σ)).emit
        (.writeHeader w code)).emit (.write w (msg ++ "\n")), ?_, ?_, ?_, ?_⟩
  · simp only [http.Error, ResponseWriter.WriteHeader, h2, hnot, Outcome.bind,
      ResponseWriter.Write]
    simp
  · rw [hres]
  · rw [hres]
  · rw [hres]; simp

/-- The calls of `http.Error` on a sink nothing was written to, with a status
that `WriteHeader` refuses: a panic, and the sink is still unwritten. -/
theorem http_Error_refused (w : ResponseWriter) (msg : String) (code : Int) (σ : World)
    (un : (σ.response w).wroteHeader = false) (bad : code < 100 ∨ 999 < code) :
    ∃ σF, http.Error w msg code σ = .fault σF ∧
      (σF.response w).wroteHeader = false ∧ (σF.response w).Body = "" := by
  have hnot : ¬ (100 ≤ code ∧ code ≤ 999) := by omega
  have h2 := wroteHeader_after_headers w σ
  rw [un] at h2
  have hw : (((ResponseWriter.HeaderSet w "X-Content-Type-Options" "nosniff"
      (ResponseWriter.HeaderSet w "Content-Type" "text/plain; charset=utf-8" σ)).emit
        (.writeHeader w code)).response w).wroteHeader = false := by
    rw [response_emit]
    simp [Response.step, h2, hnot]
  refine ⟨_, ?_, hw, body_empty_of_unwritten _ w hw⟩
  simp only [http.Error, ResponseWriter.WriteHeader, h2, bad, Outcome.bind]
  simp

theorem response_log (σ : World) (w : ResponseWriter) (msg : String) :
    (log.Printf msg σ).response w = σ.response w := by
  simp [log.Printf, response_emit, Response.step]

theorem status_ne_nil (err : GoError) (S : Int) (hS : err.Status = some S) : err ≠ GoError.nil := by
  intro h
  rw [h] at hS
  simp [GoError.Status] at hS

/-- With the parameters in the context, `ServeHTTP` is the bundled function
followed by the translation of its error. -/
theorem ServeHTTP_of_params (h : Handler) (w : ResponseWriter) (r : RequestPtr) (σ : World)
    (req : Request) (ps : Params) (hreq : σ.load r = some req)
    (hps : req.Context.Value (.ofKey psKey) = some (.ofParams ps)) :
    Handler.ServeHTTP h w r σ = (h.H h.Env w r ps σ).bind (Handler.ServeHTTP.translate w) := by
  simp [Handler.ServeHTTP, hreq, hps]

theorem translate_classified (w : ResponseWriter) (σ : World) (err : GoError) (S : Int) (M : String)
    (hS : err.Status = some S) (hM : err.Error = some M) :
    Handler.ServeHTTP.translate w σ err =
      http.Error w M S (log.Printf ("HTTP " ++ toString S ++ " - " ++ M) σ) := by
  have hne := status_ne_nil err S hS
  simp [Handler.ServeHTTP.translate, hne, hS, hM, fmt.SprintfHTTP, fmt.verbS]

theorem translate_unclassified (w : ResponseWriter) (σ : World) (err : GoError)
    (hne : err ≠ GoError.nil) (hS : err.Status = none) :
    Handler.ServeHTTP.translate w σ err = http.Error w "Internal Server Error" 500 σ := by
  simp [Handler.ServeHTTP.translate, hne, hS, http.StatusText, http.StatusInternalServerError]

theorem translate_nil (w : ResponseWriter) (σ : World) :
    Handler.ServeHTTP.translate w σ GoError.nil = .ret σ () := by
  simp [Handler.ServeHTTP.translate]

/-- The calls of `http.Error` in any world.  On a sink whose header was not
written: all four calls and a normal return, or the first three and a panic in
`WriteHeader`.  On a sink whose header was written: the `WriteHeader` call is
superfluous, the server logs it, and the message is written. -/
theorem http_Error_calls (w : ResponseWriter) (msg : String) (code : Int) (σ : World) :
    ((σ.response w).wroteHeader = false ∧
      http.Error w msg code σ
        = .ret { heap := σ.heap, trace := σ.trace ++ http.Error.calls w msg code } ()) ∨
    ((σ.response w).wroteHeader = false ∧
      http.Error w msg code σ
        = .fault { heap := σ.heap, trace := σ.trace ++ (http.Error.calls w msg code).take 3 }) ∨
    ((σ.response w).wroteHeader = true ∧
      http.Error w msg code σ
        = .ret { heap := σ.heap,
                 trace := σ.trace ++ ((http.Error.calls w msg code).take 3 ++
                   [.logEntry http.superfluousWriteHeader, .write w (msg ++ "\n")]) } ()) := by
  have h2 := wroteHeader_after_headers w σ
  cases hw : (σ.response w).wroteHeader with
  | true =>
      rw [hw] at h2
      right; right
      refine ⟨rfl, ?_⟩
      simp only [http.Error, ResponseWriter.WriteHeader, h2, if_true, Outcome.bind]
      simp [ResponseWriter.Write, ResponseWriter.HeaderSet, World.emit, http.Error.calls]
  | false =>
      rw [hw] at h2
      by_cases hc : code < 100 ∨ 999 < code
      · right; left
        refine ⟨rfl, ?_⟩
        simp only [http.Error, ResponseWriter.WriteHeader, h2, hc, Outcome.bind]
        simp [ResponseWriter.HeaderSet, World.emit, http.Error.calls]
      · left
        refine ⟨rfl, ?_⟩
        simp only [http.Error, ResponseWriter.WriteHeader, h2, hc, Outcome.bind]
        simp [ResponseWriter.Write, ResponseWriter.HeaderSet, World.emit, http.Error.calls]

theorem error_of_status (err : GoError) (hmsg : err.Status ≠ none → err.Error ≠ none) :
    (∃ S M, err.Status = some S ∧ err.Error = some M) ∨ err.Status = none := by
  cases hS : err.Status with
  | none => right; rfl
  | some S =>
      left
      have := hmsg (by simp [hS])
      obtain ⟨M, hM⟩ := Option.ne_none_iff_exists'.mp this
      exact ⟨S, M, rfl, hM⟩

theorem load_new_old (σ : World) (req : Request) (p : RequestPtr) (q : Request)
    (hp : σ.load p = some q) : (σ.new req).2.load p = some q := by
  simp only [World.load, World.new, List.get?_eq_getElem?] at hp ⊢
  have hlt : p < σ.heap.length := by
    rcases Nat.lt_or_ge p σ.heap.length with hlt | hge
    · exact hlt
    · rw [List.getElem?_eq_none hge] at hp
      cases hp
  rw [List.getElem?_append_left hlt]
  exact hp

theorem load_new_fresh (σ : World) (req : Request) :
    (σ.new req).2.load (σ.new req).1 = some req := by
  simp [World.load, World.new, List.get?_eq_getElem?]

theorem Value_WithValue_same (c : Context) (k : CtxKey) (v : Option CtxVal) :
    (context.WithValue c k v).Value k = v := by
  simp [context.WithValue, Context.Value]

theorem Value_WithValue_other (c : Context) (k k2 : CtxKey) (v : Option CtxVal) (hk : k2 ≠ k) :
    (context.WithValue c k v).Value k2 = c.Value k2 := by
  have : ¬ k = k2 := fun h => hk h.symm
  simp [context.WithValue, Context.Value, this]

theorem Context_of_WithContext (req : Request) (c : Context) : (req.WithContext c).Context = c := by
  simp [Request.WithContext, Request.Context]

/-- A context that stores nothing under a key returns nil for it. -/
theorem Value_none_of_not_mem (c : Context) (k : CtxKey) (hk : k ∉ c.keys) : c.Value k = none := by
  induction c with
  | background => rfl
  | valueCtx parent k2 val ih =>
      simp only [Context.keys, List.mem_cons, not_or] at hk
      have : ¬ k2 = k := fun h => hk.1 h.symm
      simp only [Context.Value, this, if_false]
      exact ih hk.2

/-- The shim, step by step: the request is copied with the parameters attached
and the handler runs on the copy. -/
theorem wrapHandler_eq (h : http.Handler) (w : ResponseWriter) (r : RequestPtr) (ps : Params)
    (σ : World) (req : Request) (hreq : σ.load r = some req) :
    wrapHandler h w r ps σ =
      h w σ.heap.length
        (σ.new (req.WithContext
          (context.WithValue req.Context (.ofKey psKey) (some (.ofParams ps))))).2 := by
  simp [wrapHandler, hreq, World.new]

/-- Without a parameter list under the private key `ServeHTTP` panics at the
type assertion, in the caller's world. -/
theorem ServeHTTP_fault_of_no_params (h : Handler) (w : ResponseWriter) (r : RequestPtr)
    (σ : World) (req : Request) (hreq : σ.load r = some req)
    (hbad : ∀ ps, req.Context.Value (.ofKey psKey) ≠ some (.ofParams ps)) :
    Handler.ServeHTTP h w r σ = .fault σ := by
  unfold Handler.ServeHTTP
  cases hv : req.Context.Value (.ofKey psKey) with
  | none => simp only [hreq, hv]
  | some val =>
      cases val with
      | ofParams ps => exact absurd hv (hbad ps)
      | other t v => simp only [hreq, hv]

/-- `Index` returns nil when the files parse, whatever `ExecuteTemplate`
returns; the world is the one `ExecuteTemplate` leaves. -/
theorem Index_nil_of_parsed (lib : template.Library) (t : template.Template) (e : Env)
    (w : ResponseWriter) (r : RequestPtr) (ps : Params) (σ : World)
    (hparse : (lib.ParseFiles ["templates/base.html", "templates/index.html"]).1 = some t) :
    Index lib e w r ps σ = .ret (lib.ExecuteTemplate t w "base" σ).1 GoError.nil := by
  have hp : (lib.ParseFiles [filepath.Join "templates" "base.html",
      filepath.Join "templates" "index.html"]).1 = some t := hparse
  simp only [Index, hp]

/-- `Index` panics when `ParseFiles` returns a nil template. -/
theorem Index_fault_of_parse_failure (lib : template.Library) (e : Env)
    (w : ResponseWriter) (r : RequestPtr) (ps : Params) (σ : World)
    (hparse : (lib.ParseFiles ["templates/base.html", "templates/index.html"]).1 = none) :
    Index lib e w r ps σ = .fault σ := by
  have hp : (lib.ParseFiles [filepath.Join "templates" "base.html",
      filepath.Join "templates" "index.html"]).1 = none := hparse
  simp only [Index, hp]

/-- `Blog` returns nil when the files parse, whatever `ExecuteTemplate` returns. -/
theorem Blog_nil_of_parsed (lib : template.Library) (t : template.Template) (e : Env)
    (w : ResponseWriter) (r : RequestPtr) (ps : Params) (σ : World)
    (hparse : (lib.ParseFiles ["templates/base.html", "templates/blog.html"]).1 = some t) :
    Blog lib e w r ps σ = .ret (lib.ExecuteTemplate t w "base" σ).1 GoError.nil := by
  have hp : (lib.ParseFiles [filepath.Join "templates" "base.html",
      filepath.Join "templates" "blog.html"]).1 = some t := hparse
  simp only [Blog, hp]

/-- `Blog` panics when `ParseFiles` returns a nil template. -/
theorem Blog_fault_of_parse_failure (lib : template.Library) (e : Env)
    (w : ResponseWriter) (r : RequestPtr) (ps : Params) (σ : World)
    (hparse : (lib.ParseFiles ["templates/base.html", "templates/blog.html"]).1 = none) :
    Blog lib e w r ps σ = .fault σ := by
  have hp : (lib.ParseFiles [filepath.Join "templates" "base.html",
      filepath.Join "templates" "blog.html"]).1 = none := hparse
  simp only [Blog, hp]

/-! ## The claims -/

/-- C1 (as amended).  The bundled function returns a classified error with
status `S` and message `M`, and nothing was written to the sink when it
returns.  If `S` is a final status that allows a body (200 to 999, not 204 or
304), `ServeHTTP` returns and the response has status `S` and the body `M`
followed by one newline.  If `S` is 101, 204 or 304, the response has status
`S` and no body.  If `S` is another 1xx status, `S` goes out as an
informational response and the response has status 200 and the body `M`
followed by one newline.  If `S` is outside 100..999, `ServeHTTP` panics in
`WriteHeader` and no status or body was written. -/
theorem c1_classified_error_response (h : Handler) (w : ResponseWriter) (r : RequestPtr)
    (σ σH : World) (req : Request) (ps : Params) (err : GoError) (S : Int) (M : String)
    (hreq : σ.load r = some req)
    (hps : req.Context.Value (.ofKey psKey) = some (.ofParams ps))
    (hH : h.H h.Env w r ps σ = .ret σH err)
    (hS : err.Status = some S) (hM : err.Error = some M)
    (hfresh : (σH.response w).wroteHeader = false) :
    (200 ≤ S ∧ S ≤ 999 ∧ S ≠ 204 ∧ S ≠ 304 →
      ∃ σF, Handler.ServeHTTP h w r σ = .ret σF () ∧
        (σF.response w).Code = S ∧ (σF.response w).Body = M ++ "\n") ∧
    (S = 101 ∨ S = 204 ∨ S = 304 →
      ∃ σF, Handler.ServeHTTP h w r σ = .ret σF () ∧
        (σF.response w).Code = S ∧ (σF.response w).Body = "") ∧
    (100 ≤ S ∧ S ≤ 199 ∧ S ≠ 101 →
      ∃ σF, Handler.ServeHTTP h w r σ = .ret σF () ∧
        (σF.response w).Informational = (σH.response w).Informational ++ [S] ∧
        (σF.response w).Code = 200 ∧ (σF.response w).Body = M ++ "\n") ∧
    (S < 100 ∨ 999 < S →
      ∃ σF, Handler.ServeHTTP h w r σ = .fault σF ∧
        (σF.response w).wroteHeader = false ∧ (σF.response w).Body = "") := by
  rw [ServeHTTP_of_params h w r σ req ps hreq hps, hH]
  simp only [Outcome.bind]
  rw [translate_classified w σH err S M hS hM]
  have un : ((log.Printf ("HTTP " ++ toString S ++ " - " ++ M) σH).response w).wroteHeader = false := by
    rw [response_log]; exact hfresh
  refine ⟨fun hrange => ?_, fun hc => http_Error_no_body w M S _ un hc, fun hinfo => ?_,
    fun hbad => http_Error_refused w M S _ un hbad⟩
  · obtain ⟨σF, h1, _, _, h4, h5⟩ :=
      http_Error_fresh w M S _ un hrange.1 hrange.2.1 hrange.2.2.1 hrange.2.2.2
    exact ⟨σF, h1, h4, h5⟩
  · have key := http_Error_informational w M S _ un hinfo.1 hinfo.2.1 hinfo.2.2
    rw [response_log] at key
    exact key

/-- C1, witness: `StatusError{404, errors.New("not found")}` gives status 404
and the body `not found` plus a newline. -/
theorem c1_classified_error_response_witness :
    ∃ σF, Handler.ServeHTTP { Env := demoEnv, H := notFound } 7 0 routedWorld = .ret σF () ∧
      (σF.response 7).Code = 404 ∧ (σF.response 7).Body = "not found" ++ "\n" :=
  (c1_classified_error_response { Env := demoEnv, H := notFound } 7 0 routedWorld routedWorld
    itemRequestWithParams itemParams (.statusError 404 (.plain "not found")) 404 "not found"
    (by decide) (by decide) (by rfl) (by rfl) (by rfl) (by decide)).1 (by decide)

/-- C1, counterexample to the claim as stated, at four errors returned by a
function that writes nothing.  `StatusError{404, errors.New("not found")}`:
the body is not exactly the message, it is the message followed by a newline.
`StatusError{0, errors.New("x")}`: `ServeHTTP` panics in `WriteHeader` and no
status was written.  `StatusError{204, errors.New("m")}`: the status is 204
and the body is empty, not `m`.  `StatusError{100, errors.New("m")}`: 100 goes
out as an informational response and the status of the response is 200. -/
theorem c1_body_is_message_plus_newline :
    ((Handler.ServeHTTP { Env := demoEnv, H := notFound } 7 0 routedWorld).world.response 7).Body
        ≠ "not found" ∧
    ((Handler.ServeHTTP { Env := demoEnv, H := notFound } 7 0 routedWorld).world.response 7).Body
        = "not found\n" ∧
    (∃ σF, Handler.ServeHTTP { Env := demoEnv, H := zeroStatus } 7 0 routedWorld = .fault σF ∧
      (σF.response 7).Code ≠ 0 ∧ (σF.response 7).wroteHeader = false) ∧
    (∃ σF, Handler.ServeHTTP { Env := demoEnv, H := noContent } 7 0 routedWorld = .ret σF () ∧
      (σF.response 7).Code = 204 ∧ (σF.response 7).Body = "" ∧ (σF.response 7).Body ≠ "m") ∧
    (∃ σF, Handler.ServeHTTP { Env := demoEnv, H := continueStatus } 7 0 routedWorld = .ret σF () ∧
      (σF.response 7).Informational = [100] ∧ (σF.response 7).Code = 200 ∧
      (σF.response 7).Code ≠ 100) := by
  refine ⟨by decide, by decide, ⟨_, rfl, by decide, by decide⟩,
    ⟨_, rfl, by decide, by decide, by decide⟩, ⟨_, rfl, by decide, by decide, by decide⟩⟩

/-- C2.  When the bundled function returns a non-nil error that does not
implement `Error`, and nothing was written to the sink when it returns,
`ServeHTTP` answers with status 500 and the body that `http.Error` prints for
`http.StatusText(500)` (the text `Internal Server Error` and the newline every
`http.Error` body ends in); it logs nothing.  Two runs that differ only in the
error returned end in the same world: the error and its message have no
influence on the response. -/
theorem c2_unclassified_error_response (h1 h2 : Handler) (w : ResponseWriter) (r : RequestPtr)
    (σ σH : World) (req : Request) (ps : Params) (e1 e2 : GoError)
    (hreq : σ.load r = some req)
    (hps : req.Context.Value (.ofKey psKey) = some (.ofParams ps))
    (hH1 : h1.H h1.Env w r ps σ = .ret σH e1)
    (hH2 : h2.H h2.Env w r ps σ = .ret σH e2)
    (hne1 : e1 ≠ GoError.nil) (hun1 : e1.Status = none)
    (hne2 : e2 ≠ GoError.nil) (hun2 : e2.Status = none)
    (hfresh : (σH.response w).wroteHeader = false) :
    ∃ σF, Handler.ServeHTTP h1 w r σ = .ret σF () ∧
      Handler.ServeHTTP h2 w r σ = .ret σF () ∧
      (σF.response w).Code = 500 ∧
      (σF.response w).Body = "Internal Server Error\n" ∧
      σF.trace = σH.trace ++ http.Error.calls w "Internal Server Error" 500 := by
  rw [ServeHTTP_of_params h1 w r σ req ps hreq hps, hH1,
    ServeHTTP_of_params h2 w r σ req ps hreq hps, hH2]
  simp only [Outcome.bind]
  rw [translate_unclassified w σH e1 hne1 hun1, translate_unclassified w σH e2 hne2 hun2]
  obtain ⟨σF, h1, _, h3, h4, h5⟩ :=
    http_Error_fresh w "Internal Server Error" 500 σH hfresh (by decide) (by decide)
      (by decide) (by decide)
  exact ⟨σF, h1, h1, h4, h5, h3⟩

/-- C2, witness: a refused database connection and an expired token give the
same response, status 500 with the standard body. -/
theorem c2_unclassified_error_response_witness :
    GoError.plain "dial tcp 10.0.0.5:5432: refused" ≠ GoError.plain "secret token expired" ∧
    ∃ σF, Handler.ServeHTTP { Env := demoEnv, H := dbDown } 7 0 routedWorld = .ret σF () ∧
      Handler.ServeHTTP { Env := demoEnv, H := tokenExpired } 7 0 routedWorld = .ret σF () ∧
      (σF.response 7).Code = 500 ∧
      (σF.response 7).Body = "Internal Server Error\n" ∧
      σF.trace = routedWorld.trace ++ http.Error.calls 7 "Internal Server Error" 500 :=
  ⟨by decide,
   c2_unclassified_error_response { Env := demoEnv, H := dbDown }
    { Env := demoEnv, H := tokenExpired } 7 0 routedWorld routedWorld
    itemRequestWithParams itemParams (.plain "dial tcp 10.0.0.5:5432: refused")
    (.plain "secret token expired")
    (by decide) (by decide) (by rfl) (by rfl) (by decide) (by rfl) (by decide) (by rfl)
    (by decide)⟩

/-- C3.  When the bundled function returns nil, `ServeHTTP` returns in exactly
the world the function left: the trace (so every status, header and body
write, and every log entry) and the heap are the function's, so is the
response of every sink. -/
theorem c3_nil_error_frame (h : Handler) (w : ResponseWriter) (r : RequestPtr)
    (σ σH : World) (req : Request) (ps : Params)
    (hreq : σ.load r = some req)
    (hps : req.Context.Value (.ofKey psKey) = some (.ofParams ps))
    (hH : h.H h.Env w r ps σ = .ret σH GoError.nil) :
    Handler.ServeHTTP h w r σ = .ret σH () ∧
      (Handler.ServeHTTP h w r σ).world.trace = σH.trace ∧
      ∀ w2, (Handler.ServeHTTP h w r σ).world.response w2 = σH.response w2 := by
  have key : Handler.ServeHTTP h w r σ = .ret σH () := by
    rw [ServeHTTP_of_params h w r σ req ps hreq hps, hH]
    simp only [Outcome.bind]
    exact translate_nil w σH
  rw [key]
  exact ⟨rfl, rfl, fun _ => rfl⟩

/-- C3, witness: after a function that writes `hello` and returns nil the
response is status 200 with body `hello`, and the trace holds that one write. -/
theorem c3_nil_error_frame_witness :
    (Handler.ServeHTTP { Env := demoEnv, H := hello } 7 0 routedWorld
        = .ret (ResponseWriter.Write 7 "hello" routedWorld) () ∧
      (Handler.ServeHTTP { Env := demoEnv, H := hello } 7 0 routedWorld).world.trace
        = (ResponseWriter.Write 7 "hello" routedWorld).trace ∧
      ∀ w2, (Handler.ServeHTTP { Env := demoEnv, H := hello } 7 0 routedWorld).world.response w2
        = (ResponseWriter.Write 7 "hello" routedWorld).response w2) ∧
    (ResponseWriter.Write 7 "hello" routedWorld).trace = [.write 7 "hello"] ∧
    ((ResponseWriter.Write 7 "hello" routedWorld).response 7).Body = "hello" :=
  ⟨c3_nil_error_frame { Env := demoEnv, H := hello } 7 0 routedWorld
    (ResponseWriter.Write 7 "hello" routedWorld) itemRequestWithParams itemParams
    (by decide) (by decide) (by rfl), by decide, by decide⟩

/-- C4 (as amended).  With the parameters in the context and a bundled function
that returns, the calls that `ServeHTTP` adds after the function are: none
when the error is nil; and, when the error is not nil (and, if classified, has
a message), exactly one `WriteHeader` on the sink followed by exactly one
`Write`, the `Write` missing only when `WriteHeader` panics.  Nothing in this
depends on what the function itself wrote. -/
theorem c4_adapter_writes_iff_error (h : Handler) (w : ResponseWriter) (r : RequestPtr)
    (σ σH : World) (req : Request) (ps : Params) (err : GoError)
    (hreq : σ.load r = some req)
    (hps : req.Context.Value (.ofKey psKey) = some (.ofParams ps))
    (hH : h.H h.Env w r ps σ = .ret σH err)
    (hmsg : err.Status ≠ none → err.Error ≠ none) :
    ∃ added, (Handler.ServeHTTP h w r σ).world.trace = σH.trace ++ added ∧
      (err = GoError.nil → added = [] ∧ Handler.ServeHTTP h w r σ = .ret σH ()) ∧
      (err ≠ GoError.nil → ∃ code body,
        (added.filter (Event.writesTo w) = [.writeHeader w code, .write w body] ∧
          ∃ σF, Handler.ServeHTTP h w r σ = .ret σF ()) ∨
        (added.filter (Event.writesTo w) = [.writeHeader w code] ∧
          ∃ σF, Handler.ServeHTTP h w r σ = .fault σF)) := by
  rw [ServeHTTP_of_params h w r σ req ps hreq hps, hH]
  simp only [Outcome.bind]
  by_cases hne : err = GoError.nil
  · subst hne
    rw [translate_nil]
    exact ⟨[], by simp [Outcome.world], fun _ => ⟨rfl, rfl⟩, fun hn => absurd rfl hn⟩
  · rcases error_of_status err hmsg with ⟨S, M, hS, hM⟩ | hun
    · rw [translate_classified w σH err S M hS hM]
      rcases http_Error_calls w M S (log.Printf ("HTTP " ++ toString S ++ " - " ++ M) σH)
        with ⟨_, hr⟩ | ⟨_, hf⟩ | ⟨_, hs⟩
      · refine ⟨.logEntry ("HTTP " ++ toString S ++ " - " ++ M) :: http.Error.calls w M S, ?_,
          fun h0 => absurd h0 hne, fun _ => ⟨S, M ++ "\n", Or.inl ⟨?_, _, hr⟩⟩⟩
        · rw [hr]; simp [Outcome.world, log.Printf, World.emit]
        · simp [http.Error.calls, Event.writesTo]
      · refine ⟨.logEntry ("HTTP " ++ toString S ++ " - " ++ M) :: (http.Error.calls w M S).take 3, ?_,
          fun h0 => absurd h0 hne, fun _ => ⟨S, M ++ "\n", Or.inr ⟨?_, _, hf⟩⟩⟩
        · rw [hf]; simp [Outcome.world, log.Printf, World.emit]
        · simp [http.Error.calls, Event.writesTo]
      · refine ⟨.logEntry ("HTTP " ++ toString S ++ " - " ++ M) ::
            ((http.Error.calls w M S).take 3 ++
              [.logEntry http.superfluousWriteHeader, .write w (M ++ "\n")]), ?_,
          fun h0 => absurd h0 hne, fun _ => ⟨S, M ++ "\n", Or.inl ⟨?_, _, hs⟩⟩⟩
        · rw [hs]; simp [Outcome.world, log.Printf, World.emit]
        · simp [http.Error.calls, Event.writesTo]
    · rw [translate_unclassified w σH err hne hun]
      rcases http_Error_calls w "Internal Server Error" 500 σH with ⟨_, hr⟩ | ⟨_, hf⟩ | ⟨_, hs⟩
      · refine ⟨http.Error.calls w "Internal Server Error" 500, ?_,
          fun h0 => absurd h0 hne, fun _ => ⟨500, "Internal Server Error" ++ "\n", Or.inl ⟨?_, _, hr⟩⟩⟩
        · rw [hr]; simp [Outcome.world]
        · simp [http.Error.calls, Event.writesTo]
      · refine ⟨(http.Error.calls w "Internal Server Error" 500).take 3, ?_,
          fun h0 => absurd h0 hne, fun _ => ⟨500, "Internal Server Error" ++ "\n", Or.inr ⟨?_, _, hf⟩⟩⟩
        · rw [hf]; simp [Outcome.world]
        · simp [http.Error.calls, Event.writesTo]
      · refine ⟨(http.Error.calls w "Internal Server Error" 500).take 3 ++
            [.logEntry http.superfluousWriteHeader, .write w ("Internal Server Error" ++ "\n")], ?_,
          fun h0 => absurd h0 hne, fun _ => ⟨500, "Internal Server Error" ++ "\n", Or.inl ⟨?_, _, hs⟩⟩⟩
        · rw [hs]; simp [Outcome.world]
        · simp [http.Error.calls, Event.writesTo]

/-- C4, witness: a function that writes `hello` and then returns an error.  The
adapter adds one `WriteHeader` and one `Write` of its own behind the
function's write. -/
theorem c4_adapter_writes_iff_error_witness :
    helloThenFail demoEnv 7 0 itemParams routedWorld
      = .ret (ResponseWriter.Write 7 "hello" routedWorld) (.plain "boom") ∧
    ∃ added, (Handler.ServeHTTP { Env := demoEnv, H := helloThenFail } 7 0 routedWorld).world.trace
        = (ResponseWriter.Write 7 "hello" routedWorld).trace ++ added ∧
      (GoError.plain "boom" = GoError.nil → added = [] ∧
        Handler.ServeHTTP { Env := demoEnv, H := helloThenFail } 7 0 routedWorld
          = .ret (ResponseWriter.Write 7 "hello" routedWorld) ()) ∧
      (GoError.plain "boom" ≠ GoError.nil → ∃ code body,
        (added.filter (Event.writesTo 7) = [.writeHeader 7 code, .write 7 body] ∧
          ∃ σF, Handler.ServeHTTP { Env := demoEnv, H := helloThenFail } 7 0 routedWorld = .ret σF ()) ∨
        (added.filter (Event.writesTo 7) = [.writeHeader 7 code] ∧
          ∃ σF, Handler.ServeHTTP { Env := demoEnv, H := helloThenFail } 7 0 routedWorld = .fault σF)) :=
  ⟨rfl,
   c4_adapter_writes_iff_error { Env := demoEnv, H := helloThenFail } 7 0 routedWorld
    (ResponseWriter.Write 7 "hello" routedWorld) itemRequestWithParams itemParams (.plain "boom")
    (by decide) (by decide) (by rfl) (by decide)⟩

/-- C4, counterexample to the claim as stated.  Both write: the function
`helloThenFail` writes `hello`, returns an error, and the adapter writes its
500 response behind it (the client is sent status 200 and both bodies).
Neither writes: the function `silent` returns nil without writing and the
adapter adds nothing, so the trace has no write at all. -/
theorem c4_both_write_or_neither_writes :
    (∃ byH byAdapter,
      (helloThenFail demoEnv 7 0 itemParams routedWorld).world.trace = routedWorld.trace ++ byH ∧
      (Handler.ServeHTTP { Env := demoEnv, H := helloThenFail } 7 0 routedWorld).world.trace
        = routedWorld.trace ++ byH ++ byAdapter ∧
      wrote 7 byH = true ∧ wrote 7 byAdapter = true ∧
      ((Handler.ServeHTTP { Env := demoEnv, H := helloThenFail } 7 0 routedWorld).world.response
        7).Code = 200 ∧
      ((Handler.ServeHTTP { Env := demoEnv, H := helloThenFail } 7 0 routedWorld).world.response
        7).Body = "helloInternal Server Error\n") ∧
    (Handler.ServeHTTP { Env := demoEnv, H := silent } 7 0 routedWorld = .ret routedWorld () ∧
      wrote 7 (Handler.ServeHTTP { Env := demoEnv, H := silent } 7 0 routedWorld).world.trace
        = false) :=
  ⟨⟨[.write 7 "hello"],
      (http.Error.calls 7 "Internal Server Error" 500).take 3 ++
        [.logEntry http.superfluousWriteHeader, .write 7 "Internal Server Error\n"],
      by decide, by decide, by decide, by decide, by decide, by decide⟩, by decide, by decide⟩

/-- C5.  The shim built for a typed handler calls the bundled function once:
there are a request pointer and a world, the same for every environment and
function, such that the shim's outcome is the outcome of the function on the
bundled environment, the same sink, that pointer and the very list `ps`,
followed by the translation of its error.  The world handed over has the
caller's trace (nothing was logged or written), and the request behind the
pointer holds `ps` under the private key. -/
theorem c5_params_round_trip (w : ResponseWriter) (r : RequestPtr) (ps : Params) (σ : World)
    (req : Request) (hreq : σ.load r = some req) :
    ∃ r2 σ2 req2, σ2.load r2 = some req2 ∧
      req2.Context.Value (.ofKey psKey) = some (.ofParams ps) ∧
      σ2.trace = σ.trace ∧
      ∀ (env : Env) (f : Handle),
        wrapHandler (Handler.ServeHTTP { Env := env, H := f }) w r ps σ
          = (f env w r2 ps σ2).bind (Handler.ServeHTTP.translate w) := by
  refine ⟨σ.heap.length,
    (σ.new (req.WithContext (context.WithValue req.Context (.ofKey psKey) (some (.ofParams ps))))).2,
    req.WithContext (context.WithValue req.Context (.ofKey psKey) (some (.ofParams ps))),
    load_new_fresh σ _, ?_, rfl, ?_⟩
  · rw [Context_of_WithContext, Value_WithValue_same]
  · intro env f
    rw [wrapHandler_eq _ w r ps σ req hreq]
    exact ServeHTTP_of_params { Env := env, H := f } w _ _ _ ps (load_new_fresh σ _)
      (by rw [Context_of_WithContext, Value_WithValue_same])

/-- C5, witness: the shim is called with `id = 42` on a request that has no
context yet; a function that prints the parameter `id` answers `42`. -/
theorem c5_params_round_trip_witness :
    (∃ r2 σ2 req2, σ2.load r2 = some req2 ∧
      req2.Context.Value (.ofKey psKey) = some (.ofParams itemParams) ∧
      σ2.trace = rawWorld.trace ∧
      ∀ (env : Env) (f : Handle),
        wrapHandler (Handler.ServeHTTP { Env := env, H := f }) 7 0 itemParams rawWorld
          = (f env 7 r2 itemParams σ2).bind (Handler.ServeHTTP.translate 7)) ∧
    ((wrapHandler (Handler.ServeHTTP { Env := demoEnv, H := showId }) 7 0 itemParams
        rawWorld).world.response 7).Body = "42" :=
  ⟨c5_params_round_trip 7 0 itemParams rawWorld itemRequest (by decide), by decide⟩

/-- C6.  `ServeHTTP` fails at the type assertion, that is, whatever the
bundled function is it panics in the caller's world (nothing was logged or
written, and the outcome does not depend on the function, which is not
called), exactly when the context of the request returns nil or a value of
another type under the private key.  A panic that the function or the
translation of its error raises later is not this failure.  In particular
`ServeHTTP` fails so for a request whose context stores nothing under the
private key, as every request does that the shim of `wrapHandler` did not
build. -/
theorem c6_fault_iff_no_params (env : Env) (w : ResponseWriter) (r : RequestPtr) (σ : World)
    (req : Request) (hreq : σ.load r = some req) :
    ((∀ H : Handle, Handler.ServeHTTP { Env := env, H := H } w r σ = .fault σ) ↔
      (req.Context.Value (.ofKey psKey) = none ∨
        ∃ t v, req.Context.Value (.ofKey psKey) = some (.other t v))) ∧
    (CtxKey.ofKey psKey ∉ req.Context.keys →
      ∀ H : Handle, Handler.ServeHTTP { Env := env, H := H } w r σ = .fault σ) := by
  have back : (req.Context.Value (.ofKey psKey) = none ∨
      ∃ t v, req.Context.Value (.ofKey psKey) = some (.other t v)) →
      ∀ H : Handle, Handler.ServeHTTP { Env := env, H := H } w r σ = .fault σ := by
    intro hbad H
    apply ServeHTTP_fault_of_no_params _ w r σ req hreq
    intro ps hps
    rcases hbad with hn | ⟨t, v, hv⟩
    · rw [hn] at hps; cases hps
    · rw [hv] at hps; cases hps
  refine ⟨⟨?_, back⟩, fun hk => back (Or.inl (Value_none_of_not_mem _ _ hk))⟩
  intro hall
  cases hv : req.Context.Value (.ofKey psKey) with
  | none => exact Or.inl rfl
  | some val =>
      cases val with
      | other t v => exact Or.inr ⟨t, v, rfl⟩
      | ofParams ps =>
          have h1 := hall (fun _ _ _ _ τ => .ret τ GoError.nil)
          rw [ServeHTTP_of_params _ w r σ req ps hreq hv] at h1
          simp [Outcome.bind, translate_nil] at h1

/-- C6, witness: a request that carries the middleware's value but no route
parameters makes `ServeHTTP` panic; so does one with a string under the
private key; one built by the shim does not. -/
theorem c6_fault_iff_no_params_witness :
    (((∀ H : Handle, Handler.ServeHTTP { Env := demoEnv, H := H } 7 0 authedWorld
          = .fault authedWorld) ↔
        (authedRequest.Context.Value (.ofKey psKey) = none ∨
          ∃ t v, authedRequest.Context.Value (.ofKey psKey) = some (.other t v))) ∧
      (CtxKey.ofKey psKey ∉ authedRequest.Context.keys →
        ∀ H : Handle, Handler.ServeHTTP { Env := demoEnv, H := H } 7 0 authedWorld
          = .fault authedWorld)) ∧
    CtxKey.ofKey psKey ∉ authedRequest.Context.keys ∧
    Handler.ServeHTTP { Env := demoEnv, H := hello } 7 0
      { heap := [mistypedRequest], trace := [] } = .fault { heap := [mistypedRequest], trace := [] } ∧
    Handler.ServeHTTP { Env := demoEnv, H := hello } 7 0 routedWorld
      = .ret (ResponseWriter.Write 7 "hello" routedWorld) () :=
  ⟨c6_fault_iff_no_params demoEnv 7 0 authedWorld authedRequest (by decide),
    by decide, by decide, by decide⟩

/-- C7.  Each verb-named method hands the engine the given path and the shim
of the given handler under its own HTTP method.  When the engine takes the
route the new router has the old routes followed by that one route; when it
does not, the engine panics and so does the method.  No other route is added
or changed, and the methods return no error value. -/
theorem c7_verbs_register_wrapped (refuses : List String → String → Bool) (r : Router)
    (path : String) (handler : http.Handler) :
    Router.Get refuses r path handler =
      (if r.Router.accepts refuses "GET" path then
        some { Router := { routes := r.Router.routes ++
          [{ method := "GET", path := path, handle := wrapHandler handler }] } }
      else none) ∧
    Router.Post refuses r path handler =
      (if r.Router.accepts refuses "POST" path then
        some { Router := { routes := r.Router.routes ++
          [{ method := "POST", path := path, handle := wrapHandler handler }] } }
      else none) ∧
    Router.Put refuses r path handler =
      (if r.Router.accepts refuses "PUT" path then
        some { Router := { routes := r.Router.routes ++
          [{ method := "PUT", path := path, handle := wrapHandler handler }] } }
      else none) ∧
    Router.Delete refuses r path handler =
      (if r.Router.accepts refuses "DELETE" path then
        some { Router := { routes := r.Router.routes ++
          [{ method := "DELETE", path := path, handle := wrapHandler handler }] } }
      else none) := by
  refine ⟨?_, ?_, ?_, ?_⟩
  · unfold Router.Get httprouter.Router.GET httprouter.Router.Handle
    split <;> rfl
  · unfold Router.Post httprouter.Router.POST httprouter.Router.Handle
    split <;> rfl
  · unfold Router.Put httprouter.Router.PUT httprouter.Router.Handle
    split <;> rfl
  · unfold Router.Delete httprouter.Router.DELETE httprouter.Router.Handle
    split <;> rfl

/-- C7, witness: on a new router `Get("/blog", h)` registers one route, under
`GET`. -/
theorem c7_verbs_register_wrapped_witness :
    Router.Get refusesDuplicate NewRouter "/blog" (Handler.ServeHTTP { Env := demoEnv, H := silent })
      = some { Router := { routes :=
          [{ method := "GET", path := "/blog",
             handle := wrapHandler (Handler.ServeHTTP { Env := demoEnv, H := silent }) }] } } :=
  (c7_verbs_register_wrapped refusesDuplicate NewRouter "/blog"
    (Handler.ServeHTTP { Env := demoEnv, H := silent })).1.trans (if_pos (by decide))

/-- C8, the code at the failing input.  With template files that do not parse,
`Index` and `Blog` do not return nil: `ParseFiles` returns a nil template, the
error is dropped, and the call of `ExecuteTemplate` on the nil template
panics.  With files that parse and an execution that fails half way, both
return nil. -/
theorem c8_page_handlers_panic_on_parse_failure :
    Index missingTemplates demoEnv 7 0 itemParams routedWorld = .fault routedWorld ∧
    Blog missingTemplates demoEnv 7 0 itemParams routedWorld = .fault routedWorld ∧
    Index brokenExecution demoEnv 7 0 itemParams routedWorld
      = .ret (ResponseWriter.Write 7 "<html>" routedWorld) GoError.nil ∧
    Blog brokenExecution demoEnv 7 0 itemParams routedWorld
      = .ret (ResponseWriter.Write 7 "<html>" routedWorld) GoError.nil := by
  refine ⟨rfl, rfl, rfl, rfl⟩

/-- C9 (as amended).  When the bundled function returns a classified error
with status `S` and message `M`, the calls that `ServeHTTP` adds after the
function start with its one log call, the entry `HTTP S - M`, ahead of the
calls of `http.Error`.  If the header was not written when the function
returns, the rest holds no log entry and is the calls of `http.Error` (all
four, or the first three when `WriteHeader` panics): the entry is the only one
and the status and body are written after it.  If the function already wrote
the header, the rest is the two header calls, the superfluous `WriteHeader`,
the line the server logs for it, and the `Write`: a second entry follows, and
the response was begun before the first. -/
theorem c9_log_entry_heads_translation (h : Handler) (w : ResponseWriter) (r : RequestPtr)
    (σ σH : World) (req : Request) (ps : Params) (err : GoError) (S : Int) (M : String)
    (hreq : σ.load r = some req)
    (hps : req.Context.Value (.ofKey psKey) = some (.ofParams ps))
    (hH : h.H h.Env w r ps σ = .ret σH err)
    (hS : err.Status = some S) (hM : err.Error = some M) :
    ∃ rest, (Handler.ServeHTTP h w r σ).world.trace
        = σH.trace ++ Event.logEntry ("HTTP " ++ toString S ++ " - " ++ M) :: rest ∧
      ((σH.response w).wroteHeader = false →
        rest.filter Event.isLog = [] ∧
        (rest = http.Error.calls w M S ∨ rest = (http.Error.calls w M S).take 3)) ∧
      ((σH.response w).wroteHeader = true →
        rest = (http.Error.calls w M S).take 3 ++
          [.logEntry http.superfluousWriteHeader, .write w (M ++ "\n")]) := by
  rw [ServeHTTP_of_params h w r σ req ps hreq hps, hH]
  simp only [Outcome.bind]
  rw [translate_classified w σH err S M hS hM]
  rcases http_Error_calls w M S (log.Printf ("HTTP " ++ toString S ++ " - " ++ M) σH)
    with ⟨hw, hr⟩ | ⟨hw, hf⟩ | ⟨hw, hs⟩
  · rw [response_log] at hw
    refine ⟨http.Error.calls w M S, ?_, fun _ => ⟨?_, Or.inl rfl⟩, fun ht => ?_⟩
    · rw [hr]; simp [Outcome.world, log.Printf, World.emit]
    · simp [http.Error.calls, Event.isLog]
    · rw [hw] at ht; cases ht
  · rw [response_log] at hw
    refine ⟨(http.Error.calls w M S).take 3, ?_, fun _ => ⟨?_, Or.inr rfl⟩, fun ht => ?_⟩
    · rw [hf]; simp [Outcome.world, log.Printf, World.emit]
    · simp [http.Error.calls, Event.isLog]
    · rw [hw] at ht; cases ht
  · rw [response_log] at hw
    refine ⟨(http.Error.calls w M S).take 3 ++
        [.logEntry http.superfluousWriteHeader, .write w (M ++ "\n")], ?_, fun hn => ?_, fun _ => rfl⟩
    · rw [hs]; simp [Outcome.world, log.Printf, World.emit]
    · rw [hw] at hn; cases hn

/-- C9, witness: `StatusError{404, errors.New("not found")}` from a function
that writes nothing is logged as `HTTP 404 - not found`, ahead of the four
calls of `http.Error`; no other entry is made. -/
theorem c9_log_entry_heads_translation_witness :
    (∃ rest, (Handler.ServeHTTP { Env := demoEnv, H := notFound } 7 0 routedWorld).world.trace
        = routedWorld.trace ++
            Event.logEntry ("HTTP " ++ toString (404 : Int) ++ " - " ++ "not found") :: rest ∧
      ((routedWorld.response 7).wroteHeader = false →
        rest.filter Event.isLog = [] ∧
        (rest = http.Error.calls 7 "not found" 404 ∨
          rest = (http.Error.calls 7 "not found" 404).take 3)) ∧
      ((routedWorld.response 7).wroteHeader = true →
        rest = (http.Error.calls 7 "not found" 404).take 3 ++
          [.logEntry http.superfluousWriteHeader, .write 7 ("not found" ++ "\n")])) ∧
    (routedWorld.response 7).wroteHeader = false ∧
    (Handler.ServeHTTP { Env := demoEnv, H := notFound } 7 0 routedWorld).world.trace
      = [.logEntry "HTTP 404 - not found",
         .headerSet 7 "Content-Type" "text/plain; charset=utf-8",
         .headerSet 7 "X-Content-Type-Options" "nosniff",
         .writeHeader 7 404, .write 7 "not found\n"] :=
  ⟨c9_log_entry_heads_translation { Env := demoEnv, H := notFound } 7 0 routedWorld routedWorld
    itemRequestWithParams itemParams (.statusError 404 (.plain "not found")) 404 "not found"
    (by decide) (by decide) (by rfl) (by rfl) (by rfl), by decide, by decide⟩

/-- C9, counterexample to the claim as stated: a function that writes `hello`
and then returns `StatusError{404, errors.New("not found")}`.  When the entry
`HTTP 404 - not found` is made the response was already written (status 200,
body `hello`), and `ServeHTTP` causes two log entries, not one: the server
logs the superfluous `WriteHeader` of `http.Error`. -/
theorem c9_entry_after_write_and_second_entry :
    helloThenNotFound demoEnv 7 0 itemParams routedWorld
      = .ret (ResponseWriter.Write 7 "hello" routedWorld)
          (.statusError 404 (.plain "not found")) ∧
    ((ResponseWriter.Write 7 "hello" routedWorld).response 7).wroteHeader = true ∧
    ((ResponseWriter.Write 7 "hello" routedWorld).response 7).Code = 200 ∧
    ((ResponseWriter.Write 7 "hello" routedWorld).response 7).Body = "hello" ∧
    (Handler.ServeHTTP { Env := demoEnv, H := helloThenNotFound } 7 0 routedWorld).world.trace
      = [.write 7 "hello",
         .logEntry "HTTP 404 - not found",
         .headerSet 7 "Content-Type" "text/plain; charset=utf-8",
         .headerSet 7 "X-Content-Type-Options" "nosniff",
         .writeHeader 7 404,
         .logEntry http.superfluousWriteHeader,
         .write 7 "not found\n"] ∧
    ((Handler.ServeHTTP { Env := demoEnv, H := helloThenNotFound } 7 0
        routedWorld).world.trace.filter Event.isLog).length = 2 := by
  refine ⟨rfl, by decide, by decide, by decide, by decide, by decide⟩

/-- C10.  The shim changes nothing but the parameter entry of the context:
there are a pointer and a world, the same for every wrapped handler, such that
the shim's outcome is the outcome of the handler on the same sink, that
pointer and that world.  The world has the caller's trace; every request of
the caller's heap, the original `r` among them, is unchanged; the request
behind the new pointer has the method, URL, headers and body of `r`, and its
context returns for every key but the private one what the context of `r`
returns. -/
theorem c10_shim_frame (w : ResponseWriter) (r : RequestPtr) (ps : Params) (σ : World)
    (req : Request) (hreq : σ.load r = some req) :
    ∃ r2 σ2 req2, (∀ h : http.Handler, wrapHandler h w r ps σ = h w r2 σ2) ∧
      σ2.trace = σ.trace ∧
      (∀ p q, σ.load p = some q → σ2.load p = some q) ∧
      σ2.load r = some req ∧
      r2 ≠ r ∧
      σ2.load r2 = some req2 ∧
      req2.Method = req.Method ∧ req2.URL = req.URL ∧
      req2.Header = req.Header ∧ req2.Body = req.Body ∧
      ∀ k, k ≠ .ofKey psKey → req2.Context.Value k = req.Context.Value k := by
  refine ⟨σ.heap.length,
    (σ.new (req.WithContext (context.WithValue req.Context (.ofKey psKey) (some (.ofParams ps))))).2,
    req.WithContext (context.WithValue req.Context (.ofKey psKey) (some (.ofParams ps))),
    fun h => wrapHandler_eq h w r ps σ req hreq, rfl,
    fun p q hp => load_new_old σ _ p q hp, load_new_old σ _ r req hreq, ?_,
    load_new_fresh σ _, rfl, rfl, rfl, rfl, ?_⟩
  · intro heq
    rw [← heq] at hreq
    simp [World.load, List.get?_eq_getElem?] at hreq
  · intro k hk
    rw [Context_of_WithContext, Value_WithValue_other _ _ _ _ hk]

/-- C10, witness: a request whose context already holds a value under a
foreign key keeps it, and keeps its method, URL, headers and body. -/
theorem c10_shim_frame_witness :
    authedWorld.load 0 = some authedRequest ∧
    ∃ r2 σ2 req2, (∀ h : http.Handler, wrapHandler h 7 0 itemParams authedWorld = h 7 r2 σ2) ∧
      σ2.trace = authedWorld.trace ∧
      (∀ p q, authedWorld.load p = some q → σ2.load p = some q) ∧
      σ2.load 0 = some authedRequest ∧
      r2 ≠ 0 ∧
      σ2.load r2 = some req2 ∧
      req2.Method = authedRequest.Method ∧ req2.URL = authedRequest.URL ∧
      req2.Header = authedRequest.Header ∧ req2.Body = authedRequest.Body ∧
      ∀ k, k ≠ .ofKey psKey → req2.Context.Value k = authedRequest.Context.Value k :=
  ⟨by decide, c10_shim_frame 7 0 itemParams authedWorld authedRequest (by decide)⟩

end Gosvelte
